import Mathlib

/-!
Shallow embedding of the `ai-job-agent` repository (Python) in Lean 4,
covering the deduplication key, the location filter, the token-bucket rate
limiter, the tailored-resume data model, the LLM-response section parsers,
and the docx resume-tailoring pipeline, together with theorems settling the
specification claims about them.

Python strings are modelled as Lean `String`; the ASCII fragments of
`str.lower`, `str.upper`, `str.strip`, and `str.isspace` are modelled
character-by-character (all string constants appearing in the code are
ASCII).  Machine floats of the rate limiter are modelled as exact rationals.
-/

namespace JobAgent

/-! ## Python string primitives -/

/-- ASCII whitespace, as recognised by Python `str.strip()` / `\s`. -/
def pyWs (c : Char) : Bool :=
  c = ' ' || c = '\t' || c = '\n' || c = '\r' || c = '\x0b' || c = '\x0c'

/-- ASCII fragment of Python `str.lower` on a single character. -/
def pyLowerChar (c : Char) : Char :=
  if 'A' ≤ c ∧ c ≤ 'Z' then Char.ofNat (c.toNat + 32) else c

/-- ASCII fragment of Python `str.upper` on a single character. -/
def pyUpperChar (c : Char) : Char :=
  if 'a' ≤ c ∧ c ≤ 'z' then Char.ofNat (c.toNat - 32) else c

/-- Python `s.lower()`. -/
def pyLower (s : String) : String := ⟨s.toList.map pyLowerChar⟩

/-- Python `s.upper()`. -/
def pyUpper (s : String) : String := ⟨s.toList.map pyUpperChar⟩

/-- Python `s.strip()`: drop leading and trailing whitespace. -/
def pyStrip (s : String) : String :=
  ⟨((s.toList.dropWhile pyWs).reverse.dropWhile pyWs).reverse⟩

/-- Boolean prefix test on character lists. -/
def listPrefix : List Char → List Char → Bool
  | [], _ => true
  | _ :: _, [] => false
  | a :: as, b :: bs => a = b && listPrefix as bs

/-- Boolean contiguous-sublist test on character lists. -/
def listInfix (pat : List Char) : List Char → Bool
  | [] => listPrefix pat []
  | c :: rest => listPrefix pat (c :: rest) || listInfix pat rest

/-- Python substring containment `pat in s`. -/
def strIn (pat s : String) : Bool := listInfix pat.toList s.toList

/-! ## SHA-256 (model of `hashlib.sha256(...).hexdigest()`)

A complete executable SHA-256 over byte lists, with 32-bit words carried as
`Nat` reduced modulo `2 ^ 32`.  Rotations are expressed through division and
multiplication on the 32-bit range. -/

/-- Reduce to a 32-bit word. -/
def w32 (n : Nat) : Nat := n % 4294967296

/-- Right-rotation of a 32-bit word by `r` bits. -/
def rotr (r x : Nat) : Nat := x / 2 ^ r + x % 2 ^ r * 2 ^ (32 - r)

/-- Right-shift of a 32-bit word by `r` bits. -/
def shr (r x : Nat) : Nat := x / 2 ^ r

/-- Bitwise complement on 32 bits (for `x < 2 ^ 32`). -/
def not32 (x : Nat) : Nat := 4294967295 - x

/-- The 64 SHA-256 round constants (FIPS 180-4 §4.2.2), written in
decimal. -/
def sha256K : List Nat :=
  [1116352408, 1899447441, 3049323471, 3921009573, 961987163,
   1508970993, 2453635748, 2870763221, 3624381080, 310598401,
   607225278, 1426881987, 1925078388, 2162078206, 2614888103,
   3248222580, 3835390401, 4022224774, 264347078, 604807628,
   770255983, 1249150122, 1555081692, 1996064986, 2554220882,
   2821834349, 2952996808, 3210313671, 3336571891, 3584528711,
   113926993, 338241895, 666307205, 773529912, 1294757372,
   1396182291, 1695183700, 1986661051, 2177026350, 2456956037,
   2730485921, 2820302411, 3259730800, 3345764771, 3516065817,
   3600352804, 4094571909, 275423344, 430227734, 506948616,
   659060556, 883997877, 958139571, 1322822218, 1537002063,
   1747873779, 1955562222, 2024104815, 2227730452, 2361852424,
   2428436474, 2756734187, 3204031479, 3329325298]

structure Sha256State where
  a : Nat
  b : Nat
  c : Nat
  d : Nat
  e : Nat
  f : Nat
  g : Nat
  h : Nat
deriving Repr

/-- The eight SHA-256 initial hash values (FIPS 180-4 §5.3.3), in
decimal. -/
def sha256Init : Sha256State :=
  ⟨1779033703, 3144134277, 1013904242, 2773480762,
   1359893119, 2600822924, 528734635, 1541459225⟩

/-- Big-endian 4-byte expansion of a 32-bit word. -/
def bytes4 (x : Nat) : List Nat :=
  [x / 16777216 % 256, x / 65536 % 256, x / 256 % 256, x % 256]

/-- Big-endian 8-byte expansion of a 64-bit length. -/
def bytes8 (x : Nat) : List Nat :=
  [x / 2 ^ 56 % 256, x / 2 ^ 48 % 256, x / 2 ^ 40 % 256, x / 2 ^ 32 % 256,
   x / 2 ^ 24 % 256, x / 2 ^ 16 % 256, x / 2 ^ 8 % 256, x % 256]

/-- SHA-256 message padding: `0x80`, zeros to 56 mod 64, then the bit
length as 8 big-endian bytes. -/
def sha256Pad (msg : List Nat) : List Nat :=
  msg ++ [128] ++ List.replicate ((119 - msg.length % 64) % 64) 0
      ++ bytes8 (8 * msg.length % 2 ^ 64)

/-- The first 16 words (big-endian) of a 64-byte chunk. -/
def chunkWords (chunk : List Nat) : List Nat :=
  (List.range 16).map fun i =>
    chunk.getD (4 * i) 0 * 16777216 + chunk.getD (4 * i + 1) 0 * 65536 +
    chunk.getD (4 * i + 2) 0 * 256 + chunk.getD (4 * i + 3) 0

/-- Message schedule: extend 16 words to 64. -/
def sha256Schedule (chunk : List Nat) : List Nat :=
  (List.range 48).foldl
    (fun ws _ =>
      let n := ws.length
      let s0 :=
        (rotr 7 (ws.getD (n - 15) 0)).xor
          ((rotr 18 (ws.getD (n - 15) 0)).xor (shr 3 (ws.getD (n - 15) 0)))
      let s1 :=
        (rotr 17 (ws.getD (n - 2) 0)).xor
          ((rotr 19 (ws.getD (n - 2) 0)).xor (shr 10 (ws.getD (n - 2) 0)))
      ws ++ [w32 (ws.getD (n - 16) 0 + s0 + ws.getD (n - 7) 0 + s1)])
    (chunkWords chunk)

/-- One round of the SHA-256 compression function. -/
def sha256Round (st : Sha256State) (kw : Nat × Nat) : Sha256State :=
  let s1 := (rotr 6 st.e).xor ((rotr 11 st.e).xor (rotr 25 st.e))
  let ch := (st.e.land st.f).xor ((not32 st.e).land st.g)
  let temp1 := w32 (st.h + s1 + ch + kw.1 + kw.2)
  let s0 := (rotr 2 st.a).xor ((rotr 13 st.a).xor (rotr 22 st.a))
  let maj := (st.a.land st.b).xor ((st.a.land st.c).xor (st.b.land st.c))
  let temp2 := w32 (s0 + maj)
  ⟨w32 (temp1 + temp2), st.a, st.b, st.c, w32 (st.d + temp1), st.e, st.f, st.g⟩

/-- Compress one 64-byte chunk into the running state. -/
def sha256Compress (st : Sha256State) (chunk : List Nat) : Sha256State :=
  let fin := (sha256K.zip (sha256Schedule chunk)).foldl sha256Round st
  ⟨w32 (st.a + fin.a), w32 (st.b + fin.b), w32 (st.c + fin.c), w32 (st.d + fin.d),
   w32 (st.e + fin.e), w32 (st.f + fin.f), w32 (st.g + fin.g), w32 (st.h + fin.h)⟩

/-- Fold the compression function over consecutive 64-byte chunks. -/
def sha256Blocks (st : Sha256State) (l : List Nat) : Sha256State :=
  if h : l = [] then st
  else sha256Blocks (sha256Compress st (l.take 64)) (l.drop 64)
termination_by l.length
decreasing_by
  have hl : 0 < l.length := List.length_pos.mpr h
  simp [List.length_drop]
  omega

/-- The 32 digest bytes of a message given as a byte list. -/
def sha256Digest (msg : List Nat) : List Nat :=
  let st := sha256Blocks sha256Init (sha256Pad msg)
  bytes4 st.a ++ bytes4 st.b ++ bytes4 st.c ++ bytes4 st.d ++
  bytes4 st.e ++ bytes4 st.f ++ bytes4 st.g ++ bytes4 st.h

/-- Lowercase hexadecimal digit. -/
def hexDigit (n : Nat) : Char :=
  if n < 10 then Char.ofNat (48 + n) else Char.ofNat (87 + n)

/-- Two hex characters of one byte. -/
def hexByte (b : Nat) : List Char := [hexDigit (b / 16 % 16), hexDigit (b % 16)]

/-- Lowercase hex string of a byte list (`hexdigest`). -/
def hexOfBytes (bs : List Nat) : String := ⟨bs.foldr (fun b acc => hexByte b ++ acc) []⟩

/-- UTF-8 bytes of a string (`s.encode("utf-8")`). -/
def utf8Bytes (s : String) : List Nat := s.toUTF8.toList.map UInt8.toNat

/-! ## `src/utils/dedupe.py` -/

/-- Embeds `hash_text(s)`: SHA-256 hex digest of the UTF-8 encoding of `s`. -/
def hash_text (s : String) : String := hexOfBytes (sha256Digest (utf8Bytes s))

/-- Embeds `job_key(title, company, location)` from `src/utils/dedupe.py`. -/
def job_key (title company location : String) : String :=
  hash_text (pyLower (pyStrip title) ++ "::" ++ pyLower (pyStrip company) ++
    "::" ++ pyLower (pyStrip location))

/-! ## `src/utils/location_filter.py` -/

/-- The loop `for c in cities: if c.lower() in loc: return True` of
`is_location_ok`, scanning a list of names for a case-insensitive
substring match against the (already lowered) location. -/
def scanLoop (loc : List Char) : List String → Bool
  | [] => false
  | c :: rest => if listInfix (pyLower c).toList loc then true else scanLoop loc rest

/-- Embeds `is_location_ok(location, cities, countries, remote_ok, remote_global_ok)`
from `src/utils/location_filter.py` (the `location or ""` null-guard is a
no-op on genuine strings, which is how every caller invokes it). -/
def is_location_ok (location : String) (cities countries : List String)
    (remote_ok remote_global_ok : Bool) : Bool :=
  let loc := pyLower location
  if strIn "remote" loc then
    if remote_ok || remote_global_ok then true else false
  else if scanLoop loc.toList cities then true
  else if scanLoop loc.toList countries then true
  else false

/-! ## `src/utils/rate_limit.py`

`TokenBucket.consume` reads the wall clock; its observable arithmetic is a
function of the elapsed time since the last refill, which we pass
explicitly.  Float arithmetic is modelled by exact rationals. -/

structure TokenBucket where
  capacity : ℚ
  tokens : ℚ
deriving Repr

/-- Embeds `TokenBucket.consume(n)`: refill from `elapsed` seconds, then either
deduct `n` (sleep 0) or sleep `(n - tokens) * (60/capacity)` and zero the
bucket.  Returns the updated bucket and the sleep duration. -/
def TokenBucket.consume (b : TokenBucket) (elapsed n : ℚ) : TokenBucket × ℚ :=
  let refill := elapsed * (b.capacity / 60)
  let t := min b.capacity (b.tokens + refill)
  if n ≤ t then ({ b with tokens := t - n }, 0)
  else ({ b with tokens := 0 }, (n - t) * (60 / b.capacity))

/-! ## `src/generators/models/tailored_data.py`

The per-section updaters of `resume_tailor.py` address experience, project
and education entries as Python dicts; the dict shapes they read are
modelled as structures of optional fields (`none` = key absent, and a
present-but-empty string is falsy exactly like an absent key at every
truthiness test in the code). -/

structure ExpDict where
  title : Option String := none
  company : Option String := none
  location : Option String := none
  duration : Option String := none
  bullets : List String := []
deriving DecidableEq, Repr

structure ProjDict where
  name : Option String := none
  technologies : List String := []
  description : Option String := none
deriving DecidableEq, Repr

structure EduDict where
  degree : Option String := none
  school : Option String := none
  location : Option String := none
  date : Option String := none
  institution : Option String := none
  year : Option String := none
  details : List String := []
deriving DecidableEq, Repr

/-- Python truthiness of an optional string value. -/
def truthy : Option String → Bool
  | some s => s ≠ ""
  | none => false

/-- The `TailoredResumeData` dataclass: six content fields plus
`raw_text`. -/
structure TailoredResumeData where
  summary : String := ""
  experience : List ExpDict := []
  projects : List ProjDict := []
  technical_skills : List (String × List String) := []
  education : List EduDict := []
  research_publications : List String := []
  raw_text : String := ""
deriving DecidableEq, Repr

/-- Embeds `TailoredResumeData.is_empty`: `not any([summary, experience, projects,
technical_skills, education, research_publications])` — `raw_text` is not
in the list the source checks. -/
def TailoredResumeData.is_empty (d : TailoredResumeData) : Bool :=
  !(d.summary ≠ "" || d.experience ≠ [] || d.projects ≠ [] ||
    d.technical_skills ≠ [] || d.education ≠ [] || d.research_publications ≠ [])

/-! ## docx document model

A document body is the ordered list of its block-level children: paragraphs
(`w:p`) and tables (`w:tbl`).  A paragraph carries its style name and the
concatenated text of its runs (run-level bold/italic/alignment/indentation
are pure formatting and are abstracted away); a table carries its shape,
column widths in EMU, style, and the texts of its two cells.  The style
registry (`doc.styles`) only ever gains entries through
`get_or_create_style`, which swallows every exception it might meet and
never touches the body, so it is not represented. -/

structure Para where
  style : String
  text : String
deriving DecidableEq, Repr

structure DocTable where
  cols : Nat
  width0 : Nat
  width1 : Nat
  tstyle : String
  cell00 : String
  cell01 : String
deriving DecidableEq, Repr

inductive Block
  | par (p : Para)
  | tbl (t : DocTable)
deriving DecidableEq, Repr

abbrev Doc := List Block

/-- Python exceptions observable in the embedded fragment. -/
inductive PyErr
  | attributeError (attr : String)
  | indexError (msg : String)
deriving DecidableEq, Repr

def isPar : Block → Bool
  | .par _ => true
  | .tbl _ => false

/-- Number of body paragraphs (`len(doc.paragraphs)`). -/
def paraCount (doc : Doc) : Nat := doc.countP isPar

/-- The tables of a document body, in order. -/
def tablesOf (doc : Doc) : List DocTable :=
  doc.filterMap fun b => match b with | .tbl t => some t | .par _ => none

/-- The call `doc.add_heading(text, level)` produces a paragraph styled
`Heading <level>`. -/
def headingPara (text : String) (level : Nat) : Block :=
  .par ⟨"Heading " ++ toString level, text⟩

/-- The call `doc.add_paragraph()` with no arguments: an empty `Normal` paragraph. -/
def blankPara : Block := .par ⟨"Normal", ""⟩

/-- Python `str.title()` (ASCII fragment). -/
def pyTitleGo : List Char → Bool → List Char
  | [], _ => []
  | c :: rest, prevAlpha =>
    (if c.isAlpha then (if prevAlpha then pyLowerChar c else pyUpperChar c) else c)
      :: pyTitleGo rest c.isAlpha

def pyTitle (s : String) : String := ⟨pyTitleGo s.toList false⟩

/-! ## `src/generators/utils/docx_utils.py` -/

/-- Embeds `add_paragraph_with_style(doc, text, style_name)`: empty or whitespace
text degrades to a bare `doc.add_paragraph()`; otherwise the paragraph gets
the requested style (`get_or_create_style` resolves or creates it under the
same name) with the text as its single run; no `style_name` means the
default `Normal` style. -/
def add_paragraph_with_style (doc : Doc) (text : String) (style : Option String) : Doc :=
  if pyStrip text = "" then doc ++ [blankPara]
  else doc ++ [.par ⟨style.getD "Normal", text⟩]

/-- Text of `doc.paragraphs[-1]`, if any paragraph exists. -/
def lastParaText (doc : Doc) : Option String :=
  (doc.filterMap fun b => match b with | .par p => some p.text | .tbl _ => none).getLast?

/-- Embeds `add_section(doc, title, level=2)`: spacing blank when the last
paragraph has text, then a heading at the clamped level, then a blank. -/
def add_section (doc : Doc) (title : String) (level : Nat := 2) : Doc :=
  let d := match lastParaText doc with
    | some t => if pyStrip t ≠ "" then doc ++ [blankPara] else doc
    | none => doc
  d ++ [headingPara title (min (max 1 level) 3), blankPara]

/-! ## `src/generators/services/resume_tailor.py` -/

/-- The methods the class `ResumeTailor` actually defines (the complete
`def` list of the class body). -/
def resumeTailorMethods : List String :=
  ["__init__", "generate_tailored_content", "_parse_llm_response",
   "create_tailored_resume", "_update_template_with_tailored_data",
   "_ensure_styles_exist", "_build_resume_from_scratch",
   "_update_summary_section", "_update_experience_section",
   "_add_experience_entry", "_update_skills_section",
   "_update_projects_section", "_update_education_section",
   "_update_research_publications", "_find_section_heading",
   "_clear_until_heading"]

def methodDefined (m : String) : Bool := resumeTailorMethods.contains m

/-- Evaluating `self.<m>(...)` when the class defines no attribute `m`
raises `AttributeError` before any argument effect. -/
def callUndefined (doc : Doc) (m : String) : Doc × Option PyErr :=
  (doc, some (.attributeError m))

/-- Embeds `_find_section_heading(doc, section_name)`: the first body paragraph
whose upper-cased text equals the upper-cased section name, as a block
index (the source's extra `style.name.startswith('Heading') and text
match` disjunct is absorbed by the text test it conjoins). -/
def findHeadingAux (name : String) : Doc → Nat → Option Nat
  | [], _ => none
  | .par p :: rest, i =>
    if pyUpper p.text = pyUpper name then some i else findHeadingAux name rest (i + 1)
  | .tbl _ :: rest, i => findHeadingAux name rest (i + 1)

def find_section_heading (doc : Doc) (name : String) : Option Nat :=
  findHeadingAux name doc 0

/-- Embeds `_clear_until_heading(doc, start_para, target_heading)`.  Its
body begins `all_paras = list(parent.iterchildren('w:p'))`: lxml's
`iterchildren` does no prefix resolution, so the literal tag `'w:p'`
matches none of the body's namespaced children (which is why python-docx
ships `qn()`, and why this repo's own `docx_utils.py` wraps `w:val` /
`w:left` in `qn()` before handing them to lxml).  `all_paras` is therefore
always empty, the guard `if not all_paras: return None` fires, and the
function returns `None` without removing or modifying anything.  The
scan-and-remove code after the guard is dead in every execution, so the
observable behaviour is: document unchanged, no boundary paragraph. -/
def clear_until_heading (doc : Doc) (startIdx : Nat) (target : String) :
    Doc × Option Para :=
  (doc, none)

/-- The `_add_experience_entry` job-header parts: title, company, location in
order, keeping only truthy values. -/
def expHeaderParts (e : ExpDict) : List String :=
  (if truthy e.title then [e.title.getD ""] else []) ++
  (if truthy e.company then [e.company.getD ""] else []) ++
  (if truthy e.location then [e.location.getD ""] else [])

/-- Embeds `_add_experience_entry(doc, exp)`: a `Normal` header paragraph joining
the parts with " • " (plus a tab and the duration when present), then one
`List Bullet` paragraph per non-blank bullet, stripped. -/
def add_experience_entry (doc : Doc) (e : ExpDict) : Doc :=
  let parts := expHeaderParts e
  let d1 :=
    if parts ≠ [] then
      let base := String.intercalate " • " parts
      let txt := if truthy e.duration then base ++ "\t" ++ e.duration.getD "" else base
      doc ++ [.par ⟨"Normal", txt⟩]
    else doc
  e.bullets.foldl
    (fun d b => if pyStrip b ≠ "" then d ++ [.par ⟨"List Bullet", pyStrip b⟩] else d) d1

/-- The no-heading fallback of `_update_summary_section`, with a non-empty
paragraph list: insert the `SUMMARY` heading before the first paragraph and
the summary text before the paragraph that then sits at index 1 (the old
first paragraph). -/
def insertSummaryFallback : Doc → String → Doc
  | [], _ => []
  | .par p :: rest, s =>
    headingPara "SUMMARY" 1 :: .par ⟨"Body Text", s⟩ :: .par p :: rest
  | .tbl t :: rest, s => .tbl t :: insertSummaryFallback rest s

/-- Embeds `_update_summary_section(doc, summary)`. -/
def update_summary_section (doc : Doc) (summary : String) : Doc × Option PyErr :=
  if summary = "" then (doc, none)
  else
    match find_section_heading doc "SUMMARY" with
    | none =>
      if 0 < paraCount doc then (insertSummaryFallback doc summary, none)
      else (doc ++ [headingPara "SUMMARY" 1, .par ⟨"Body Text", summary⟩], none)
    | some _ => callUndefined doc "_clear_until_next_heading"

/-- Embeds `_update_experience_section(doc, experience)`. -/
def update_experience_section (doc : Doc) (exps : List ExpDict) : Doc × Option PyErr :=
  if exps = [] then (doc, none)
  else
    match find_section_heading doc "EXPERIENCE" with
    | none => (exps.foldl add_experience_entry (doc ++ [headingPara "EXPERIENCE" 1]), none)
    | some _ => callUndefined doc "_clear_until_next_heading"

def projSectionNames : List String := ["PROJECTS", "PERSONAL PROJECTS", "SIDE PROJECTS"]

def pubSectionNames : List String := ["RESEARCH & PUBLICATIONS", "PUBLICATIONS", "RESEARCH"]

/-- The `for name in section_names: ... if heading: break` scan. -/
def find_any_heading (doc : Doc) : List String → Option Nat
  | [] => none
  | n :: rest =>
    match find_section_heading doc n with
    | some i => some i
    | none => find_any_heading doc rest

/-- Project title line: name and a `Technologies: ...` part, joined by
" | " (the list form of `technologies`; entries are built as lists by the
parser). -/
def projTitle (p : ProjDict) : String :=
  let parts :=
    (if truthy p.name then [p.name.getD ""] else []) ++
    (if p.technologies ≠ [] then
      ["Technologies: " ++ String.intercalate ", " p.technologies] else [])
  String.intercalate " | " parts

/-- One project entry of `_update_projects_section` (dict form): a
`Heading 2` title paragraph, then a `List Bullet` paragraph per non-blank
line of the description string. -/
def add_project_paras (doc : Doc) (p : ProjDict) : Doc :=
  let d1 := add_paragraph_with_style doc (projTitle p) (some "Heading 2")
  if truthy p.description then
    ((p.description.getD "").splitOn "\n").foldl
      (fun d pt =>
        let t := pyStrip pt
        if t ≠ "" then add_paragraph_with_style d t (some "List Bullet") else d) d1
  else d1

/-- Embeds `_update_projects_section(doc, projects)`. -/
def update_projects_section (doc : Doc) (projs : List ProjDict) : Doc × Option PyErr :=
  if projs = [] then (doc, none)
  else
    match find_any_heading doc projSectionNames with
    | none => (projs.foldl add_project_paras (doc ++ [headingPara "PROJECTS" 1]), none)
    | some _ => callUndefined doc "_clear_until_next_heading"

/-- One skills category of `_update_skills_section`: upper-cased category
as `Heading 2`, comma-joined skills as `Normal`, then a spacing blank. -/
def addSkillCategory (doc : Doc) (cat : String) (sk : List String) : Doc :=
  let d1 := add_paragraph_with_style doc (pyUpper cat) (some "Heading 2")
  let d2 := add_paragraph_with_style d1 (String.intercalate ", " sk) (some "Normal")
  d2 ++ [blankPara]

def addSkillCategories (doc : Doc) : List (String × List String) → Doc
  | [] => doc
  | (cat, sk) :: rest =>
    if sk = [] then addSkillCategories doc rest
    else addSkillCategories (addSkillCategory doc cat sk) rest

/-- Embeds `_update_skills_section(doc, skills)`: find or create the `SKILLS`
heading, run `_clear_until_heading(doc, skills_heading, "SKILLS")`, then
append the category paragraphs.  Its whole body sits in a
`try/except`-with-fallback, so it never propagates an exception. -/
def update_skills_section (doc : Doc) (skills : List (String × List String)) :
    Doc × Option PyErr :=
  let fc : Doc × Nat :=
    match find_section_heading doc "SKILLS" with
    | some i => (doc, i)
    | none => (doc ++ [headingPara "Skills" 1, blankPara], doc.length)
  let d2 := (clear_until_heading fc.1 fc.2 "SKILLS").1
  if skills = [] then (d2, none)
  else (addSkillCategories d2 skills, none)

/-- Cell (0,0) of an education-entry table: degree, `", "` + school when
text already present, `" | "` + location likewise. -/
def eduCell0 (e : EduDict) : String :=
  let t0 := if truthy e.degree then e.degree.getD "" else ""
  let t1 :=
    if truthy e.school then
      (if t0 ≠ "" then t0 ++ ", " ++ e.school.getD "" else e.school.getD "")
    else t0
  if truthy e.location then
    (if t1 ≠ "" then t1 ++ " | " ++ e.location.getD "" else e.location.getD "")
  else t1

/-- The 1×2 table built for one education entry: `Table Normal` style,
column widths `Inches(5.0)` and `Inches(1.5)` (4572000 and 1371600 EMU),
degree/school/location in the left cell, the date in the right cell. -/
def eduTable (e : EduDict) : DocTable :=
  { cols := 2, width0 := 4572000, width1 := 1371600, tstyle := "Table Normal",
    cell00 := eduCell0 e, cell01 := if truthy e.date then e.date.getD "" else "" }

/-- One education entry: its table, then a `Body Text` paragraph per
non-blank detail. -/
def addEduEntry (doc : Doc) (e : EduDict) : Doc :=
  let d1 := doc ++ [.tbl (eduTable e)]
  e.details.foldl
    (fun d det => if pyStrip det ≠ "" then d ++ [.par ⟨"Body Text", det⟩] else d) d1

/-- Embeds `_update_education_section(doc, education)`. -/
def update_education_section (doc : Doc) (edus : List EduDict) : Doc × Option PyErr :=
  if edus = [] then (doc, none)
  else
    match find_section_heading doc "EDUCATION" with
    | none => (edus.foldl addEduEntry (doc ++ [headingPara "EDUCATION" 1]), none)
    | some _ => callUndefined doc "_clear_until_next_heading"

/-- Embeds `_update_research_publications(doc, publications)` (string entries, as
the callers hold them). -/
def update_research_publications (doc : Doc) (pubs : List String) : Doc × Option PyErr :=
  if pubs = [] then (doc, none)
  else
    match find_any_heading doc pubSectionNames with
    | none =>
      (pubs.foldl
        (fun d pub =>
          if pyStrip pub ≠ "" then d ++ [.par ⟨"List Bullet", pyStrip pub⟩] else d)
        (doc ++ [headingPara "RESEARCH & PUBLICATIONS" 1]), none)
    | some _ => callUndefined doc "_clear_until_next_heading"

/-- Embeds `_ensure_styles_exist(doc)`: the `get_or_create_style` loop only
touches the style registry and swallows its own exceptions; the method then
unconditionally evaluates `self._ensure_numbering(doc)`, an attribute the
class never defines. -/
def ensure_styles_exist (doc : Doc) : Doc × Option PyErr :=
  callUndefined doc "_ensure_numbering"

/-- One iteration of the section loop of
`_update_template_with_tailored_data`: skip required sections with falsy
data, find or create the heading, run the updater, and swallow any
exception it raises (`except: continue` keeps the partially mutated
document). -/
def runSection (doc : Doc) (name : String) (dataEmpty required : Bool)
    (f : Doc → Doc × Option PyErr) : Doc :=
  if dataEmpty && required then doc
  else
    let d1 :=
      match find_section_heading doc name with
      | some _ => doc
      | none =>
        let d :=
          match lastParaText doc with
          | some t => if pyStrip t ≠ "" then doc ++ [blankPara] else doc
          | none => doc
        d ++ [headingPara (pyTitle name) 1, blankPara]
    (f d1).1

/-- Embeds `_update_template_with_tailored_data(doc, tailored_data)`: ensure the
styles (which raises `AttributeError`), then process the six sections; the
outer `except ... raise` re-raises whatever escapes the per-section
handlers. -/
def update_template_with_tailored_data (doc : Doc) (data : TailoredResumeData) :
    Doc × Option PyErr :=
  match ensure_styles_exist doc with
  | (d, some e) => (d, some e)
  | (d, none) =>
    let d1 := runSection d "SUMMARY" (data.summary = "") true
      (fun x => update_summary_section x data.summary)
    let d2 := runSection d1 "EXPERIENCE" (data.experience = []) true
      (fun x => update_experience_section x data.experience)
    let d3 := runSection d2 "PROJECTS" (data.projects = []) false
      (fun x => update_projects_section x data.projects)
    let d4 := runSection d3 "SKILLS" (data.technical_skills = []) true
      (fun x => update_skills_section x data.technical_skills)
    let d5 := runSection d4 "EDUCATION" (data.education = []) true
      (fun x => update_education_section x data.education)
    let d6 := runSection d5 "RESEARCH PUBLICATIONS" (data.research_publications = []) false
      (fun x => update_research_publications x data.research_publications)
    (d6, none)

/-- Skills line of `_build_resume_from_scratch`. -/
def skillLine (c : String × List String) : String :=
  c.1 ++ ": " ++ String.intercalate ", " c.2

/-- Education line of `_build_resume_from_scratch` (dict entries;
`edu.get` with empty-string defaults). -/
def eduScratchLine (e : EduDict) : String :=
  (e.degree.getD "") ++ ", " ++ (e.institution.getD "") ++ " (" ++ (e.year.getD "") ++ ")"

/-- Embeds `_build_resume_from_scratch(tailored_data)`: a fresh document with a
name heading and plain sections.  When `tailored_data.projects` is
non-empty the first loop iteration evaluates `self._add_project_entry`, an
attribute the class never defines, so the build raises `AttributeError`
after adding the `PROJECTS` section heading. -/
def build_resume_from_scratch (profileName : Option String)
    (data : TailoredResumeData) : Doc × Option PyErr :=
  let d1 : Doc :=
    if truthy profileName then
      add_paragraph_with_style [] (profileName.getD "") (some "Heading 1")
    else []
  let d2 :=
    if data.summary ≠ "" then
      add_paragraph_with_style (add_section d1 "SUMMARY") data.summary none
    else d1
  let d3 :=
    if data.experience ≠ [] then
      data.experience.foldl add_experience_entry (add_section d2 "EXPERIENCE")
    else d2
  if data.projects ≠ [] then
    callUndefined (add_section d3 "PROJECTS") "_add_project_entry"
  else
    let d5 :=
      if data.technical_skills ≠ [] then
        data.technical_skills.foldl
          (fun d c => add_paragraph_with_style d (skillLine c) none)
          (add_section d3 "SKILLS")
      else d3
    let d6 :=
      if data.education ≠ [] then
        data.education.foldl
          (fun d e => add_paragraph_with_style d (eduScratchLine e) none)
          (add_section d5 "EDUCATION")
      else d5
    let d7 :=
      if data.research_publications ≠ [] then
        data.research_publications.foldl
          (fun d p => add_paragraph_with_style d ("• " ++ p) none)
          (add_section d6 "RESEARCH & PUBLICATIONS")
      else d6
    (d7, none)

/-- Embeds `create_tailored_resume(tailored_data, output_path, template_path)`:
with an existing template, load it and try the template update; on any
exception fall back to the scratch build; save and return.  An exception
raised by the fallback itself is re-raised by both outer handlers.
`save_document` performs only file I/O and returns the path; it is
modelled by returning the saved document. -/
def create_tailored_resume (templateExists : Bool) (templateDoc : Doc)
    (profileName : Option String) (data : TailoredResumeData) : Except PyErr Doc :=
  if templateExists then
    match update_template_with_tailored_data templateDoc data with
    | (d, none) => .ok d
    | (_, some _) =>
      match build_resume_from_scratch profileName data with
      | (d, none) => .ok d
      | (_, some e) => .error e
  else
    match build_resume_from_scratch profileName data with
    | (d, none) => .ok d
    | (_, some e) => .error e

/-! ## `src/generators/utils/parsing_utils.py`: `_parse_education`

`_parse_education` selects the education text with three regexes, tried in
order under `re.DOTALL | re.IGNORECASE`:

1. `##\s*EDUCATION\s*##(.*?)(?=##|$)`
2. `##\s*EDUCATION(.*?)(?=##\s*\w|$)`
3. `##\s*EDUCATION[\s\S]*?(?=##\s*\w|$)`   (no capture group)

For each pattern, a match sets `edu_text = match.group(1).strip()` and a
non-empty `edu_text` breaks the loop.  The third pattern has no group, so
`group(1)` raises `IndexError("no such group")` whenever it is reached and
matches.  We embed exactly this selection phase.  `re.search` scans start
positions left to right; `\s*` before a non-`\s` literal is maximal-munch;
a lazy `(.*?)`/`[\s\S]*?` stops at the first position where the lookahead
holds; `$` (no MULTILINE) holds at the end of the string or before a sole
trailing newline. -/

/-- Python `\w` (ASCII fragment). -/
def isWordChar (c : Char) : Bool := c.isAlphanum || c = '_'

/-- Python `$` without MULTILINE. -/
def atStringEnd : List Char → Bool
  | [] => true
  | ['\n'] => true
  | _ => false

/-- Case-insensitive literal match, returning the rest on success. -/
def matchCI : List Char → List Char → Option (List Char)
  | [], l => some l
  | _ :: _, [] => none
  | p :: ps, c :: cs => if pyLowerChar p = pyLowerChar c then matchCI ps cs else none

/-- Consume a literal `##`. -/
def hashHash : List Char → Option (List Char)
  | '#' :: '#' :: r => some r
  | _ => none

/-- Consume `##\s*EDUCATION` (case-insensitive). -/
def eduHead (l : List Char) : Option (List Char) :=
  match hashHash l with
  | some r => matchCI "EDUCATION".toList (r.dropWhile pyWs)
  | none => none

/-- Lazy group of pattern 1: shortest prefix whose remainder satisfies
`(?=##|$)`. -/
def lazyUntilHH (acc : List Char) : List Char → List Char
  | [] => acc.reverse
  | c :: rest =>
    if (hashHash (c :: rest)).isSome || atStringEnd (c :: rest) then acc.reverse
    else lazyUntilHH (c :: acc) rest

/-- The lookahead `(?=##\s*\w)`. -/
def lookaheadHHWord (l : List Char) : Bool :=
  match hashHash l with
  | some r =>
    match r.dropWhile pyWs with
    | c :: _ => isWordChar c
    | [] => false
  | none => false

/-- Lazy group of pattern 2: shortest prefix whose remainder satisfies
`(?=##\s*\w|$)`. -/
def lazyUntilBoundary (acc : List Char) : List Char → List Char
  | [] => acc.reverse
  | c :: rest =>
    if lookaheadHHWord (c :: rest) || atStringEnd (c :: rest) then acc.reverse
    else lazyUntilBoundary (c :: acc) rest

/-- Pattern 1 anchored at the head of `l`: group 1 on success. -/
def pattern1At (l : List Char) : Option String :=
  match eduHead l with
  | some r =>
    match hashHash (r.dropWhile pyWs) with
    | some r2 => some ⟨lazyUntilHH [] r2⟩
    | none => none
  | none => none

/-- Pattern 2 anchored at the head of `l`: group 1 on success (the group
and trailing lookahead always close, at the string end if nowhere else). -/
def pattern2At (l : List Char) : Option String :=
  (eduHead l).map fun r => (⟨lazyUntilBoundary [] r⟩ : String)

/-- The `re.search` of pattern 1: leftmost start position. -/
def searchEdu1 : List Char → Option String
  | [] => none
  | c :: rest =>
    match pattern1At (c :: rest) with
    | some g => some g
    | none => searchEdu1 rest

/-- The `re.search` of pattern 2: leftmost start position. -/
def searchEdu2 : List Char → Option String
  | [] => none
  | c :: rest =>
    match pattern2At (c :: rest) with
    | some g => some g
    | none => searchEdu2 rest

/-- Pattern 3 matches iff `##\s*EDUCATION` occurs anywhere (its lazy tail
and lookahead always close at the string end). -/
def searchEduHead : List Char → Bool
  | [] => false
  | c :: rest => (eduHead (c :: rest)).isSome || searchEduHead rest

/-- The pattern-selection loop of `_parse_education` (the `for pattern in
edu_patterns` loop): the extracted section text if any pattern yields a
non-empty stripped group, `none` when no text is found — and
`IndexError` when the group-less third pattern is the first to produce
usable output, since `edu_match.group(1)` is evaluated on it.
`parse_llm_response` calls `_parse_education(response, tailored)` with no
surrounding handler, so this error propagates out of `parse_llm_response`. -/
def parse_education_pattern_loop (response : String) : Except PyErr (Option String) :=
  let step3 : Except PyErr (Option String) :=
    if searchEduHead response.toList then .error (.indexError "no such group")
    else .ok none
  let step2 : Except PyErr (Option String) :=
    match searchEdu2 response.toList with
    | some g => if pyStrip g ≠ "" then .ok (some (pyStrip g)) else step3
    | none => step3
  match searchEdu1 response.toList with
  | some g => if pyStrip g ≠ "" then .ok (some (pyStrip g)) else step2
  | none => step2

/-! ## Concrete example inputs used by the theorems -/

/-- A template body: `SKILLS` heading, old skills text, `EDUCATION`
heading, old education text. -/
def skillsDocEx : Doc :=
  [.par ⟨"Heading 1", "SKILLS"⟩, .par ⟨"Normal", "Python, SQL"⟩,
   .par ⟨"Heading 1", "EDUCATION"⟩, .par ⟨"Normal", "B.Sc. Computer Science"⟩]

/-- A template body with a `SUMMARY` heading. -/
def summaryDocEx : Doc :=
  [.par ⟨"Heading 1", "SUMMARY"⟩, .par ⟨"Normal", "Old summary."⟩,
   .par ⟨"Heading 1", "SKILLS"⟩]

/-- Tailored data whose only content is one project entry. -/
def projDataEx : TailoredResumeData :=
  { projects := [{ name := some "Job Agent", description := some "Automated job applications" }] }

/-- Tailored data with no content at all. -/
def emptyDataEx : TailoredResumeData := {}

/-- Tailored data whose only content is `raw_text`. -/
def rawOnlyDataEx : TailoredResumeData := { raw_text := "original resume text" }

/-- One education entry in the dict shape the template updater reads. -/
def eduEntryEx : EduDict :=
  { degree := some "B.Tech in Computer Science", school := some "IIT Delhi",
    location := some "New Delhi", date := some "2019 - 2023" }

/-! ## Theorems -/

theorem ensure_numbering_not_defined : methodDefined "_ensure_numbering" = false := by decide

theorem clear_next_not_defined : methodDefined "_clear_until_next_heading" = false := by decide

theorem add_project_entry_not_defined : methodDefined "_add_project_entry" = false := by decide

theorem clear_until_heading_is_defined : methodDefined "_clear_until_heading" = true := by decide

/-! ### Helper lemmas -/

theorem listInfix_nil (l : List Char) : listInfix [] l = true := by
  cases l <;> simp [listInfix, listPrefix]

theorem scanLoop_eq_any (loc : List Char) (l : List String) :
    scanLoop loc l = l.any fun c => listInfix (pyLower c).toList loc := by
  induction l with
  | nil => rfl
  | cons s rest ih => cases hb : listInfix (pyLower s).toList loc <;> simp [scanLoop, hb, ih]

theorem hexFold_length (bs : List Nat) :
    (bs.foldr (fun b acc => hexByte b ++ acc) []).length = 2 * bs.length := by
  induction bs with
  | nil => rfl
  | cons b rest ih =>
    simp only [List.foldr_cons, List.length_append, ih, List.length_cons]
    have : (hexByte b).length = 2 := rfl
    omega

theorem sha256Digest_length (m : List Nat) : (sha256Digest m).length = 32 := by
  simp [sha256Digest, bytes4]

theorem hash_text_length (s : String) : (hash_text s).length = 64 := by
  show (hexOfBytes (sha256Digest (utf8Bytes s))).length = 64
  show ((sha256Digest (utf8Bytes s)).foldr (fun b acc => hexByte b ++ acc) []).length = 64
  rw [hexFold_length, sha256Digest_length]

theorem hexDigit_mem (n : Nat) (h : n < 16) :
    hexDigit n ∈ ("0123456789abcdef" : String).toList := by
  have : ∀ k < 16, hexDigit k ∈ ("0123456789abcdef" : String).toList := by decide
  exact this n h

theorem mem_hexFold (bs : List Nat) (ch : Char)
    (h : ch ∈ bs.foldr (fun b acc => hexByte b ++ acc) []) :
    ch ∈ ("0123456789abcdef" : String).toList := by
  induction bs with
  | nil => simp at h
  | cons b rest ih =>
    simp only [List.foldr_cons, List.mem_append] at h
    rcases h with h | h
    · simp only [hexByte, List.mem_cons, List.not_mem_nil, or_false] at h
      rcases h with h | h <;> subst h <;>
        exact hexDigit_mem _ (Nat.mod_lt _ (by norm_num))
    · exact ih h

theorem tablesOf_cons_par (p : Para) (doc : Doc) : tablesOf (.par p :: doc) = tablesOf doc := rfl

theorem tablesOf_cons_tbl (t : DocTable) (doc : Doc) :
    tablesOf (.tbl t :: doc) = t :: tablesOf doc := rfl

theorem tablesOf_append (l1 l2 : Doc) : tablesOf (l1 ++ l2) = tablesOf l1 ++ tablesOf l2 := by
  simp [tablesOf, List.filterMap_append]

theorem tablesOf_append_par (doc : Doc) (p : Para) :
    tablesOf (doc ++ [.par p]) = tablesOf doc := by
  simp [tablesOf_append, tablesOf]

theorem tablesOf_add_paragraph_with_style (doc : Doc) (t : String) (s : Option String) :
    tablesOf (add_paragraph_with_style doc t s) = tablesOf doc := by
  unfold add_paragraph_with_style
  split <;> simp [blankPara, tablesOf_append_par]

theorem tablesOf_append_heading (doc : Doc) (t : String) (lv : Nat) :
    tablesOf (doc ++ [headingPara t lv]) = tablesOf doc := by
  rw [tablesOf_append, show tablesOf [headingPara t lv] = [] from rfl, List.append_nil]

theorem tablesOf_append_heading_blank (doc : Doc) (t : String) (lv : Nat) :
    tablesOf (doc ++ [headingPara t lv, blankPara]) = tablesOf doc := by
  rw [tablesOf_append, show tablesOf [headingPara t lv, blankPara] = [] from rfl,
    List.append_nil]

theorem tablesOf_clear_until_heading (doc : Doc) (i : Nat) (t : String) :
    tablesOf (clear_until_heading doc i t).1 = tablesOf doc := rfl

theorem tablesOf_addSkillCategories (l : List (String × List String)) (doc : Doc) :
    tablesOf (addSkillCategories doc l) = tablesOf doc := by
  induction l generalizing doc with
  | nil => rfl
  | cons c rest ih =>
    rcases c with ⟨cat, sk⟩
    by_cases h : sk = []
    · simp [addSkillCategories, h, ih]
    · simp only [addSkillCategories, h, if_neg, if_false, ih, addSkillCategory]
      rw [show blankPara = Block.par ⟨"Normal", ""⟩ from rfl, tablesOf_append_par,
        tablesOf_add_paragraph_with_style, tablesOf_add_paragraph_with_style]

theorem tablesOf_detailsFold (l : List String) (doc : Doc) :
    tablesOf (l.foldl
      (fun d det => if pyStrip det ≠ "" then d ++ [.par ⟨"Body Text", det⟩] else d) doc) =
      tablesOf doc := by
  induction l generalizing doc with
  | nil => rfl
  | cons a rest ih =>
    rw [List.foldl_cons]
    by_cases h : pyStrip a ≠ ""
    · rw [if_pos h, ih, tablesOf_append_par]
    · rw [if_neg h, ih]

theorem tablesOf_addEduEntry (doc : Doc) (e : EduDict) :
    tablesOf (addEduEntry doc e) = tablesOf doc ++ [eduTable e] := by
  unfold addEduEntry
  rw [tablesOf_detailsFold, tablesOf_append, tablesOf_cons_tbl]
  rfl

theorem tablesOf_eduFold (l : List EduDict) (doc : Doc) :
    tablesOf (l.foldl addEduEntry doc) = tablesOf doc ++ l.map eduTable := by
  induction l generalizing doc with
  | nil => simp
  | cons e rest ih =>
    rw [List.foldl_cons, ih, tablesOf_addEduEntry, List.map_cons, List.append_assoc,
      List.singleton_append]

theorem build_snd_eq_none (pn : Option String) (data : TailoredResumeData)
    (h : data.projects = []) : (build_resume_from_scratch pn data).2 = none := by
  unfold build_resume_from_scratch
  simp [h]

/-! ### Claim theorems -/

/-- C1 (evaluation at the failing input): on a body `SKILLS` heading /
old skills paragraph / `EDUCATION` heading / education paragraph, the
clear operation as invoked by the skills updater
(`_clear_until_heading(doc, skills_heading, "SKILLS")`) removes nothing
at all — its `parent.iterchildren('w:p')` scan matches no children, so it
returns at the `if not all_paras` guard.  The `EDUCATION` heading and
everything after it are indeed untouched, but the old skills paragraph
between `SKILLS` and `EDUCATION`, which the claim requires to be
physically removed, is still present, and `None` is returned instead of
the boundary paragraph. -/
theorem clear_until_heading_removes_nothing :
    clear_until_heading skillsDocEx 0 "SKILLS" = (skillsDocEx, none) ∧
    Block.par ⟨"Normal", "Python, SQL"⟩ ∈ (clear_until_heading skillsDocEx 0 "SKILLS").1 := by
  decide

/-- Counterexample to C2 as stated: the skills updater, with a `SKILLS`
heading present in the document, calls the defined `_clear_until_heading`
(not the undefined `_clear_until_next_heading`) and completes without an
`AttributeError`; so it is not the case that every per-section updater
that finds an existing heading calls the undefined method. -/
theorem update_skills_completes_on_existing_heading :
    (update_skills_section skillsDocEx [("Languages", ["Python", "SQL"])]).2 = none := by
  decide

/-- C2 (amended): `_ensure_styles_exist` unconditionally evaluates the
undefined `_ensure_numbering`, so `_update_template_with_tailored_data`
raises `AttributeError` for every document and data; every per-section
updater that finds an existing heading raises `AttributeError` for
`_clear_until_next_heading` — except the skills updater, which calls the
defined `_clear_until_heading` and never raises; and whenever
`tailored_data.projects` is empty, `create_tailored_resume` on an
existing template produces the scratch-built document. -/
theorem template_path_always_falls_back_to_scratch :
    (∀ doc data, update_template_with_tailored_data doc data =
        (doc, some (.attributeError "_ensure_numbering"))) ∧
    (∀ doc, ensure_styles_exist doc = (doc, some (.attributeError "_ensure_numbering"))) ∧
    (∀ doc s, s ≠ "" → (find_section_heading doc "SUMMARY").isSome = true →
      update_summary_section doc s = (doc, some (.attributeError "_clear_until_next_heading"))) ∧
    (∀ doc exps, exps ≠ [] → (find_section_heading doc "EXPERIENCE").isSome = true →
      update_experience_section doc exps =
        (doc, some (.attributeError "_clear_until_next_heading"))) ∧
    (∀ doc projs, projs ≠ [] → (find_any_heading doc projSectionNames).isSome = true →
      update_projects_section doc projs =
        (doc, some (.attributeError "_clear_until_next_heading"))) ∧
    (∀ doc edus, edus ≠ [] → (find_section_heading doc "EDUCATION").isSome = true →
      update_education_section doc edus =
        (doc, some (.attributeError "_clear_until_next_heading"))) ∧
    (∀ doc pubs, pubs ≠ [] → (find_any_heading doc pubSectionNames).isSome = true →
      update_research_publications doc pubs =
        (doc, some (.attributeError "_clear_until_next_heading"))) ∧
    (∀ doc skills, (update_skills_section doc skills).2 = none) ∧
    (∀ tdoc pn data, data.projects = [] →
      create_tailored_resume true tdoc pn data = .ok (build_resume_from_scratch pn data).1) := by
  refine ⟨fun doc data => rfl, fun doc => rfl, ?_, ?_, ?_, ?_, ?_, ?_, ?_⟩
  · intro doc s hs hfind
    obtain ⟨i, hi⟩ := Option.isSome_iff_exists.mp hfind
    unfold update_summary_section
    rw [if_neg hs, hi]
    rfl
  · intro doc exps hne hfind
    obtain ⟨i, hi⟩ := Option.isSome_iff_exists.mp hfind
    unfold update_experience_section
    rw [if_neg hne, hi]
    rfl
  · intro doc projs hne hfind
    obtain ⟨i, hi⟩ := Option.isSome_iff_exists.mp hfind
    unfold update_projects_section
    rw [if_neg hne, hi]
    rfl
  · intro doc edus hne hfind
    obtain ⟨i, hi⟩ := Option.isSome_iff_exists.mp hfind
    unfold update_education_section
    rw [if_neg hne, hi]
    rfl
  · intro doc pubs hne hfind
    obtain ⟨i, hi⟩ := Option.isSome_iff_exists.mp hfind
    unfold update_research_publications
    rw [if_neg hne, hi]
    rfl
  · intro doc skills
    unfold update_skills_section
    cases hf : find_section_heading doc "SKILLS" <;> by_cases hsk : skills = [] <;>
      simp [hf, hsk]
  · intro tdoc pn data hproj
    rcases hE : build_resume_from_scratch pn data with ⟨d, e⟩
    have he : e = none := by
      have h2 := build_snd_eq_none pn data hproj
      rw [hE] at h2
      exact h2
    subst he
    have hu : update_template_with_tailored_data tdoc data =
        (tdoc, some (.attributeError "_ensure_numbering")) := rfl
    simp [create_tailored_resume, hu, hE]

/-- Witness for C2 (amended): a concrete document with a `SUMMARY` heading
makes the summary updater raise, and concrete empty-project data makes
`create_tailored_resume` return the scratch document. -/
theorem template_path_always_falls_back_to_scratch_witness :
    update_summary_section summaryDocEx "Tailored summary." =
      (summaryDocEx, some (.attributeError "_clear_until_next_heading")) ∧
    create_tailored_resume true summaryDocEx (some "Jane Doe") emptyDataEx =
      .ok (build_resume_from_scratch (some "Jane Doe") emptyDataEx).1 :=
  ⟨template_path_always_falls_back_to_scratch.2.2.1 summaryDocEx "Tailored summary."
      (by decide) (by decide),
   template_path_always_falls_back_to_scratch.2.2.2.2.2.2.2.2 summaryDocEx (some "Jane Doe")
      emptyDataEx (by decide)⟩

/-- C3 (evaluation at the failing input): with an existing template and
tailored data holding one project entry, the template-update exception is
caught, but the scratch rebuild itself evaluates the undefined
`_add_project_entry` and the `AttributeError` propagates to the caller —
no document is saved. -/
theorem create_tailored_resume_crashes_on_projects :
    create_tailored_resume true skillsDocEx (some "Jane Doe") projDataEx =
      .error (.attributeError "_add_project_entry") := by rfl

/-- C4 (evaluation at the failing input): on the response `"## EDUCATION"`
the first education regex fails, the second matches with an empty group,
and the group-less third matches, so `edu_match.group(1)` raises
`IndexError` — `parse_llm_response` does not shield this call and
propagates the exception instead of returning default fields. -/
theorem parse_education_raises_on_bare_heading :
    parse_education_pattern_loop "## EDUCATION" =
      .error (.indexError "no such group") := by rfl

/-- Counterexample to C7 as stated: updating a template with a `SKILLS`
heading and non-empty skills completes but adds no table at all — the
skills section is rendered as paragraphs, not as a two-column table. -/
theorem update_skills_renders_no_table :
    (update_skills_section skillsDocEx [("Languages", ["Python", "SQL"])]).2 = none ∧
    tablesOf (update_skills_section skillsDocEx [("Languages", ["Python", "SQL"])]).1 = [] := by
  decide

/-- C7 (amended): the skills updater never changes the tables of the
document (it renders `Heading 2` category paragraphs with comma-joined
skill lists); the education updater, when no `EDUCATION` heading exists
(with one present it fails on the undefined `_clear_until_next_heading`),
renders each entry as a 1×2 table with fixed column widths `Inches(5.0)`
and `Inches(1.5)` carrying degree/school/location on the left and the date
on the right. -/
theorem skills_paragraphs_education_tables :
    (∀ doc skills, tablesOf (update_skills_section doc skills).1 = tablesOf doc) ∧
    (∀ doc edus, edus ≠ [] → find_section_heading doc "EDUCATION" = none →
      (update_education_section doc edus).2 = none ∧
      tablesOf (update_education_section doc edus).1 = tablesOf doc ++ edus.map eduTable) ∧
    (∀ e, (eduTable e).cols = 2 ∧ (eduTable e).width0 = 4572000 ∧
      (eduTable e).width1 = 1371600) := by
  refine ⟨?_, ?_, fun e => ⟨rfl, rfl, rfl⟩⟩
  · intro doc skills
    unfold update_skills_section
    cases hf : find_section_heading doc "SKILLS" with
    | none =>
      by_cases hsk : skills = []
      · simp only [hf]
        simp [hsk]
        rw [tablesOf_clear_until_heading, tablesOf_append_heading_blank]
      · simp only [hf]
        simp [hsk]
        rw [tablesOf_addSkillCategories, tablesOf_clear_until_heading,
          tablesOf_append_heading_blank]
    | some i =>
      by_cases hsk : skills = []
      · simp only [hf]
        simp [hsk]
        rw [tablesOf_clear_until_heading]
      · simp only [hf]
        simp [hsk]
        rw [tablesOf_addSkillCategories, tablesOf_clear_until_heading]
  · intro doc edus hne hf
    unfold update_education_section
    rw [if_neg hne, hf]
    exact ⟨rfl, by rw [tablesOf_eduFold, tablesOf_append_heading]⟩

/-- Witness for C7 (amended): one education entry added to an empty
document yields exactly one 1×2 fixed-width table. -/
theorem skills_paragraphs_education_tables_witness :
    ([eduEntryEx] ≠ ([] : List EduDict) ∧
      find_section_heading [] "EDUCATION" = none) ∧
    tablesOf (update_education_section [] [eduEntryEx]).1 =
      tablesOf [] ++ [eduEntryEx].map eduTable :=
  ⟨⟨by decide, rfl⟩,
   (skills_paragraphs_education_tables.2.1 [] [eduEntryEx] (by decide) rfl).2⟩


/-- C5: `job_key(title, company, location)` is the SHA-256 hex digest (a
64-character lowercase-hex string) of
`"{title.strip().lower()}::{company.strip().lower()}::{location.strip().lower()}"`,
and any two calls whose corresponding arguments agree after stripping
surrounding whitespace and lowering case return the identical key. -/
theorem job_key_sha256_and_normalization (t c l u v w : String)
    (ht : pyLower (pyStrip t) = pyLower (pyStrip u))
    (hc : pyLower (pyStrip c) = pyLower (pyStrip v))
    (hl : pyLower (pyStrip l) = pyLower (pyStrip w)) :
    job_key t c l =
      hash_text (pyLower (pyStrip t) ++ "::" ++ pyLower (pyStrip c) ++ "::" ++
        pyLower (pyStrip l)) ∧
    (job_key t c l).length = 64 ∧
    (∀ ch ∈ (job_key t c l).toList, ch ∈ ("0123456789abcdef" : String).toList) ∧
    job_key t c l = job_key u v w := by
  refine ⟨rfl, hash_text_length _, fun ch hch => mem_hexFold _ ch hch, ?_⟩
  unfold job_key
  rw [ht, hc, hl]

/-- Witness for C5 at concrete inputs differing only in case and
surrounding whitespace. -/
theorem job_key_sha256_and_normalization_witness :
    (pyLower (pyStrip " AI Engineer ") = pyLower (pyStrip "ai engineer") ∧
     pyLower (pyStrip "ACME Corp") = pyLower (pyStrip " acme corp") ∧
     pyLower (pyStrip "Pune") = pyLower (pyStrip "PUNE ")) ∧
    job_key " AI Engineer " "ACME Corp" "Pune" = job_key "ai engineer" " acme corp" "PUNE " := by
  refine ⟨⟨by decide, by decide, by decide⟩, ?_⟩
  exact (job_key_sha256_and_normalization " AI Engineer " "ACME Corp" "Pune"
    "ai engineer" " acme corp" "PUNE " (by decide) (by decide) (by decide)).2.2.2

/-- C6: `is_location_ok` consults `remote_ok`/`remote_global_ok` exactly
when the lower-cased location contains "remote", otherwise accepts iff some
city or some country is a case-insensitive substring, and is total. -/
theorem is_location_ok_decision_order (location : String)
    (cities countries : List String) (remote_ok remote_global_ok : Bool) :
    is_location_ok location cities countries remote_ok remote_global_ok =
      (if strIn "remote" (pyLower location) then remote_ok || remote_global_ok
       else
        (cities.any fun c => strIn (pyLower c) (pyLower location)) ||
        (countries.any fun c => strIn (pyLower c) (pyLower location))) := by
  unfold is_location_ok
  cases hr : strIn "remote" (pyLower location) with
  | true =>
    simp only [hr, if_true]
    cases remote_ok <;> cases remote_global_ok <;> simp
  | false =>
    simp only [hr, if_false, Bool.false_eq_true]
    rw [scanLoop_eq_any, scanLoop_eq_any]
    cases hcity : cities.any fun c => listInfix (pyLower c).toList (pyLower location).toList <;>
      cases hcountry : countries.any fun c => listInfix (pyLower c).toList (pyLower location).toList <;>
        simp_all [strIn]

/-- C10: with the empty string among the cities, every location that does
not contain "remote" (case-insensitively) is accepted, the empty location
included, because the empty string is a substring of every string. -/
theorem is_location_ok_empty_city (location : String)
    (cities countries : List String) (remote_ok remote_global_ok : Bool)
    (hmem : "" ∈ cities) (hrem : strIn "remote" (pyLower location) = false) :
    is_location_ok location cities countries remote_ok remote_global_ok = true := by
  unfold is_location_ok
  simp only [hrem, Bool.false_eq_true, if_false]
  have hscan : scanLoop (pyLower location).data cities = true := by
    rw [scanLoop_eq_any]
    exact List.any_eq_true.mpr ⟨"", hmem, listInfix_nil (pyLower location).data⟩
  simp [hscan]

/-- Witness for C10: empty location, `cities = [""]`. -/
theorem is_location_ok_empty_city_witness :
    ("" ∈ ([""] : List String) ∧ strIn "remote" (pyLower "") = false) ∧
    is_location_ok "" [""] [] false false = true :=
  ⟨⟨by decide, by decide⟩,
   is_location_ok_empty_city "" [""] [] false false (by decide) (by decide)⟩

/-- Counterexample to C8 as stated: a `TailoredResumeData` whose only
non-empty field is `raw_text` still satisfies `is_empty() == True`, so
"true iff every field is falsy, `raw_text` included" fails. -/
theorem is_empty_ignores_raw_text :
    ¬ (rawOnlyDataEx.is_empty = true ↔
        (rawOnlyDataEx.summary = "" ∧ rawOnlyDataEx.experience = [] ∧
         rawOnlyDataEx.projects = [] ∧ rawOnlyDataEx.technical_skills = [] ∧
         rawOnlyDataEx.education = [] ∧ rawOnlyDataEx.research_publications = [] ∧
         rawOnlyDataEx.raw_text = "")) := by decide

/-- C8 (amended): `is_empty()` is true iff the six content fields are all
falsy; `raw_text` is not consulted. -/
theorem is_empty_iff_content_fields (d : TailoredResumeData) :
    d.is_empty = true ↔
      (d.summary = "" ∧ d.experience = [] ∧ d.projects = [] ∧
       d.technical_skills = [] ∧ d.education = [] ∧ d.research_publications = []) := by
  simp [TailoredResumeData.is_empty, and_assoc]

/-- C9: under `capacity > 0`, `0 ≤ n ≤ capacity` and non-negative elapsed
time, `consume` leaves `tokens` within `[0, capacity]`; with
`refilled = min capacity (tokens + elapsed * capacity/60)`, the
non-blocking branch (`n ≤ refilled`) deducts exactly `n` and sleeps 0,
and the blocking branch sleeps `(n - refilled) * (60/capacity)` and leaves
`tokens = 0`. -/
theorem token_bucket_consume_invariant (b : TokenBucket) (elapsed n : ℚ)
    (hcap : 0 < b.capacity) (hn0 : 0 ≤ n) (hncap : n ≤ b.capacity)
    (helapsed : 0 ≤ elapsed) :
    (0 ≤ (b.consume elapsed n).1.tokens ∧ (b.consume elapsed n).1.tokens ≤ b.capacity) ∧
    (n ≤ min b.capacity (b.tokens + elapsed * (b.capacity / 60)) →
      (b.consume elapsed n).1.tokens =
        min b.capacity (b.tokens + elapsed * (b.capacity / 60)) - n ∧
      (b.consume elapsed n).2 = 0) ∧
    (¬ n ≤ min b.capacity (b.tokens + elapsed * (b.capacity / 60)) →
      (b.consume elapsed n).1.tokens = 0 ∧
      (b.consume elapsed n).2 =
        (n - min b.capacity (b.tokens + elapsed * (b.capacity / 60))) * (60 / b.capacity)) := by
  by_cases h : n ≤ min b.capacity (b.tokens + elapsed * (b.capacity / 60))
  · have hc : b.consume elapsed n =
        ({ b with tokens := min b.capacity (b.tokens + elapsed * (b.capacity / 60)) - n }, 0) := by
      simp only [TokenBucket.consume]
      rw [if_pos h]
    rw [hc]
    refine ⟨⟨sub_nonneg.mpr h, ?_⟩, fun _ => ⟨rfl, rfl⟩, fun hcon => absurd h hcon⟩
    have h1 : min b.capacity (b.tokens + elapsed * (b.capacity / 60)) ≤ b.capacity :=
      min_le_left _ _
    simp only
    linarith
  · have hc : b.consume elapsed n =
        ({ b with tokens := 0 },
          (n - min b.capacity (b.tokens + elapsed * (b.capacity / 60))) * (60 / b.capacity)) := by
      simp only [TokenBucket.consume]
      rw [if_neg h]
    rw [hc]
    exact ⟨⟨le_refl 0, hcap.le⟩, fun hcon => absurd hcon h, fun _ => ⟨rfl, rfl⟩⟩

/-- Witness for C9: capacity 60, empty bucket, 1 second elapsed, one
token requested. -/
theorem token_bucket_consume_invariant_witness :
    ((0:ℚ) < 60 ∧ (0:ℚ) ≤ 1 ∧ (1:ℚ) ≤ 60) ∧
    (0 ≤ ((⟨60, 0⟩ : TokenBucket).consume 1 1).1.tokens ∧
      ((⟨60, 0⟩ : TokenBucket).consume 1 1).1.tokens ≤ (60:ℚ)) :=
  ⟨⟨by norm_num, by norm_num, by norm_num⟩,
   (token_bucket_consume_invariant ⟨60, 0⟩ 1 1 (by norm_num) (by norm_num)
     (by norm_num) (by norm_num)).1⟩

end JobAgent
